import Mathlib

/-!
Verification of the appointment-scheduling core of the doctor-receptionist
repository (`src/main.py`).  The Python module is shallowly embedded below:
pure helpers (`next_weekday_date`, `parse_day_to_date`, `parse_slot_times`)
become Lean functions over `Nat`/`String`; the agent methods
(`check_availability`, `book_appointment`, `cancel_appointment`) become
functions that take the external Supabase table's rows as an explicit
`List Appt` and any collaborator outcome (insert success, calendar-call
result, delete exception) as an explicit parameter, returning the produced
result together with the table's new rows.

Modelling conventions, stated once:
* Calendar dates are proleptic-Gregorian ordinals (`Nat`, day 1 =
  0001-01-01), exactly Python's `date.toordinal()`; `date.weekday()`
  (Monday = 0) is `weekday`, `date.isoformat()` is `isoformat`, and
  `date + timedelta(days=k)` is `· + k`.
* `datetime.strptime` format matching is reproduced field by field,
  including CPython's digit-count regexes (`%Y` exactly four digits,
  `%m`/`%d`/`%I`/`%M` one or two digits within range, a whitespace in the
  format matching one-or-more whitespace characters, `%p`/month/weekday
  names case-insensitive — inputs here are lowercased before matching).
* `date.today()` inside the Python functions is passed in as an explicit
  `today : Nat` argument.
-/

/-- Lowercase one ASCII character, as Python `str.lower` acts on the
    repertoire used by this program. -/
def lowerChar (c : Char) : Char :=
  if 'A' ≤ c ∧ c ≤ 'Z' then Char.ofNat (c.toNat + 32) else c

/-- Uppercase one ASCII character, as Python `str.upper` acts on the
    repertoire used by this program. -/
def upperChar (c : Char) : Char :=
  if 'a' ≤ c ∧ c ≤ 'z' then Char.ofNat (c.toNat - 32) else c

/-- Whitespace characters recognised by Python `str.strip` / regex `\s`
    on the inputs this program sees. -/
def isSpaceChar (c : Char) : Bool :=
  c = ' ' ∨ c = '\t' ∨ c = '\n' ∨ c = '\r'

/-- Python `str.lower`. -/
def pyLower (s : String) : String := String.mk (s.data.map lowerChar)

/-- Python `str.upper`. -/
def pyUpper (s : String) : String := String.mk (s.data.map upperChar)

/-- Python `str.strip()`: drop leading and trailing whitespace
    (`List.rdropWhile p l` is `reverse (dropWhile p (reverse l))`). -/
def pyStrip (s : String) : String :=
  String.mk (List.rdropWhile isSpaceChar (s.data.dropWhile isSpaceChar))

/-- Split a character list at every character satisfying `p`, keeping empty
    pieces, as Python `str.split(sep)` does for a one-character `sep`. -/
def splitWhenAux (p : Char → Bool) : List Char → List Char → List (List Char)
  | [], acc => [acc.reverse]
  | c :: cs, acc =>
      if p c then acc.reverse :: splitWhenAux p cs []
      else splitWhenAux p cs (c :: acc)

/-- Python `str.split(sep)` for a single-character separator (keeps empty
    parts: `"a--b".split("-") == ["a", "", "b"]`). -/
def splitChar (sep : Char) (s : String) : List String :=
  (splitWhenAux (fun c => c = sep) s.data []).map String.mk

/-- Whitespace-run tokenisation: the effect of CPython's `_strptime`
    translating a whitespace in the format string to the regex `\s+`. -/
def wsTokens (s : String) : List String :=
  ((splitWhenAux isSpaceChar s.data []).map String.mk).filter (fun t => ¬ t = "")

/-- All characters are decimal digits and the string is nonempty. -/
def isDigits (s : String) : Bool := ¬ s.data = [] ∧ s.data.all Char.isDigit

/-- Numeric value of a digit string. -/
def natVal (s : String) : Nat :=
  s.data.foldl (fun n c => n * 10 + (c.toNat - 48)) 0

/-- A one-or-two-digit numeric field with value in `[lo, hi]` — the shape of
    CPython's regexes for `%m`, `%d`, `%M` (and the value range enforced). -/
def fieldNat2 (lo hi : Nat) (t : String) : Option Nat :=
  if isDigits t ∧ (t.length = 1 ∨ t.length = 2) then
    let v := natVal t
    if lo ≤ v ∧ v ≤ hi then some v else none
  else none

/-! ## Calendar arithmetic (Python `datetime.date`) -/

/-- Gregorian leap year, as `calendar.isleap` / `datetime`. -/
def isLeap (y : Nat) : Bool := y % 4 = 0 ∧ (¬ y % 100 = 0 ∨ y % 400 = 0)

/-- Length of month `m` (1–12) in year `y`. -/
def monthDays (y m : Nat) : Nat :=
  if m = 2 then (if isLeap y then 29 else 28)
  else if m = 4 ∨ m = 6 ∨ m = 9 ∨ m = 11 then 30
  else 31

/-- Days before month `m` in a non-leap year (index 1–12). -/
def daysBeforeMonth (m : Nat) : Nat :=
  [0, 0, 31, 59, 90, 120, 151, 181, 212, 243, 273, 304, 334].getD m 0

/-- Python `date(y, m, d).toordinal()`: proleptic-Gregorian ordinal with
    day 1 = 0001-01-01. -/
def toOrdinal (y m d : Nat) : Nat :=
  365 * (y - 1) + (y - 1) / 4 - (y - 1) / 100 + (y - 1) / 400
    + daysBeforeMonth m + (if 2 < m ∧ isLeap y then 1 else 0) + d

/-- Python `date.weekday()` on an ordinal: Monday = 0 … Sunday = 6. -/
def weekday (o : Nat) : Nat := (o + 6) % 7

/-- Inverse of `toOrdinal` (civil-from-days): the `(year, month, day)` whose
    ordinal is `o` (for `o ≥ 1`). -/
def fromOrdinal (o : Nat) : Nat × Nat × Nat :=
  let z := o + 305
  let era := z / 146097
  let doe := z % 146097
  let yoe := (doe - doe / 1460 + doe / 36524 - doe / 146097) / 365
  let y0 := yoe + era * 400
  let doy := doe - (365 * yoe + yoe / 4 - yoe / 100)
  let mp := (5 * doy + 2) / 153
  let d := doy - (153 * mp + 2) / 5 + 1
  let m := if mp < 10 then mp + 3 else mp - 9
  let y := if m ≤ 2 then y0 + 1 else y0
  (y, m, d)

/-- Zero-padded two-digit decimal rendering. -/
def pad2 (n : Nat) : String := if n < 10 then "0" ++ toString n else toString n

/-- Zero-padded four-digit decimal rendering. -/
def pad4 (n : Nat) : String :=
  if n < 10 then "000" ++ toString n
  else if n < 100 then "00" ++ toString n
  else if n < 1000 then "0" ++ toString n
  else toString n

/-- Python `date.isoformat()` on an ordinal: the `YYYY-MM-DD` string. -/
def isoformat (o : Nat) : String :=
  let c := fromOrdinal o
  pad4 c.1 ++ "-" ++ pad2 c.2.1 ++ "-" ++ pad2 c.2.2

/-! ## `next_weekday_date` and `parse_day_to_date` (src/main.py lines 28–69) -/

/-- `next_weekday_date(target_weekday, from_date)`: the next date (including
    `from_date` itself) whose weekday is `target_weekday`
    (`days_ahead = (target_weekday - from_date.weekday() + 7) % 7`). -/
def next_weekday_date (target_weekday : Nat) (from_date : Nat) : Nat :=
  let days_ahead := (target_weekday + 7 - weekday from_date) % 7
  if days_ahead = 0 then from_date else from_date + days_ahead

/-- `datetime.strptime(s, "%Y-%m-%d").date().toordinal()`: four-digit year,
    one-or-two-digit month 1–12 and day 1–31, then `date` validity. -/
def parseIso (s : String) : Option Nat :=
  match splitChar '-' s with
  | [ys, ms, ds] =>
      if isDigits ys ∧ ys.length = 4 then
        let y := natVal ys
        match fieldNat2 1 12 ms, fieldNat2 1 31 ds with
        | some m, some d =>
            if 1 ≤ y ∧ d ≤ monthDays y m then some (toOrdinal y m d) else none
        | _, _ => none
      else none
  | _ => none

/-- English month names matched by `%B` (input already lowercased). -/
def monthsFull : List String :=
  ["january", "february", "march", "april", "may", "june", "july",
   "august", "september", "october", "november", "december"]

/-- English month abbreviations matched by `%b` (input already lowercased). -/
def monthsAbbr : List String :=
  ["jan", "feb", "mar", "apr", "may", "jun", "jul", "aug", "sep", "oct",
   "nov", "dec"]

/-- `datetime.strptime(s, "%d <month> %Y").date().toordinal()` for a month-name
    list (`%B` or `%b`): day token, month-name token, four-digit year token
    separated by whitespace runs, then `date` validity. -/
def parseLong (months : List String) (s : String) : Option Nat :=
  match wsTokens s with
  | [ds, msTok, ys] =>
      match fieldNat2 1 31 ds, List.findIdx? (fun t => t = msTok) months with
      | some d, some i =>
          let m := i + 1
          if isDigits ys ∧ ys.length = 4 then
            let y := natVal ys
            if 1 ≤ y ∧ d ≤ monthDays y m then some (toOrdinal y m d) else none
          else none
      | _, _ => none
  | _ => none

/-- The weekday-name dictionary of `parse_day_to_date`
    (`weekdays[day_str]` guarded by `day_str in weekdays`). -/
def weekday_index (s : String) : Option Nat :=
  if s = "monday" then some 0
  else if s = "tuesday" then some 1
  else if s = "wednesday" then some 2
  else if s = "thursday" then some 3
  else if s = "friday" then some 4
  else if s = "saturday" then some 5
  else if s = "sunday" then some 6
  else none

/-- `parse_day_to_date(day_str)` (src/main.py lines 38–69): strip and
    lowercase, then try ISO `%Y-%m-%d`, then `%d %B %Y`, then `%d %b %Y`,
    then a bare weekday name resolved with `next_weekday_date` from `today`
    (the embedded `date.today()`); otherwise `none`. -/
def parse_day_to_date (day_str : String) (today : Nat) : Option Nat :=
  let d := pyLower (pyStrip day_str)
  match parseIso d with
  | some o => some o
  | none =>
    match parseLong monthsFull d with
    | some o => some o
    | none =>
      match parseLong monthsAbbr d with
      | some o => some o
      | none =>
        match weekday_index d with
        | some w => some (next_weekday_date w today)
        | none => none

/-! ## `parse_slot_times` (src/main.py lines 72–87) -/

/-- Is the remaining input exactly an `am`/`pm` marker (case-insensitive,
    nothing after it)?  `some false` for `am`, `some true` for `pm` — the
    `%p` field of `strptime` at end of format. -/
def meridiem (cs : List Char) : Option Bool :=
  match cs.map lowerChar with
  | ['a', 'm'] => some false
  | ['p', 'm'] => some true
  | _ => none

/-- `datetime.strptime(s, "%I:%M %p").time()` as `(hour24, minute)`:
    one-or-two-digit hour 1–12, colon, one-or-two-digit minute 0–59, at
    least one whitespace character, then `am`/`pm` in any case ending the
    string; `%p` converts to the 24-hour clock. -/
def parse12 (cs : List Char) : Option (Nat × Nat) :=
  let hsr := cs.span Char.isDigit
  if hsr.1.length = 0 ∨ 2 < hsr.1.length then none else
  let h := natVal (String.mk hsr.1)
  if h < 1 ∨ 12 < h then none else
  match hsr.2 with
  | ':' :: r2 =>
    let msr := r2.span Char.isDigit
    if msr.1.length = 0 ∨ 2 < msr.1.length then none else
    let m := natVal (String.mk msr.1)
    if 59 < m then none else
    let spr := msr.2.span isSpaceChar
    if spr.1.length = 0 then none else
    match meridiem spr.2 with
    | some pm =>
        let h24 := if pm then (if h = 12 then 12 else h + 12)
                   else (if h = 12 then 0 else h)
        some (h24, m)
    | none => none
  | _ => none

/-- `parse_slot_times(slot_str)` (src/main.py lines 72–87): split on `-`;
    unless exactly two parts result, fail; strip each part and parse it with
    `strptime("%I:%M %p")`; return the `(start, end)` pair of
    `(hour24, minute)` times, or `none` on any failure. -/
def parse_slot_times (slot_str : String) :
    Option ((Nat × Nat) × (Nat × Nat)) :=
  match splitChar '-' slot_str with
  | [a, b] =>
      match parse12 (pyStrip a).data, parse12 (pyStrip b).data with
      | some t1, some t2 => some (t1, t2)
      | _, _ => none
  | _ => none

/-! ## The `DoctorReceptionist` schedule data (src/main.py lines 108–133) -/

/-- `self.time_slots`: the eight canonical one-hour slots, in presentation
    order. -/
def time_slots : List String :=
  ["10:00 AM - 11:00 AM",
   "11:00 AM - 12:00 PM",
   "12:00 PM - 01:00 PM",
   "01:00 PM - 02:00 PM",
   "04:00 PM - 05:00 PM",
   "05:00 PM - 06:00 PM",
   "06:00 PM - 07:00 PM",
   "07:00 PM - 08:00 PM"]

/-- The weekdays of the Sialkot branch (`self.schedule["sialkot"]`). -/
def sialkot_days : List String := ["monday", "tuesday", "wednesday"]

/-- The weekdays of the Lahore branch (`self.schedule["lahore"]`). -/
def lahore_days : List String := ["thursday", "friday", "saturday"]

/-- `self.schedule` as a lookup: `none` models a `KeyError`-guarded miss
    (`city not in self.schedule`). -/
def schedule (city : String) : Option (List String) :=
  if city = "sialkot" then some sialkot_days
  else if city = "lahore" then some lahore_days
  else none

/-- Lowercased output of `booking_date.strftime("%A").lower()` from the
    weekday index. -/
def weekdayName (n : Nat) : String :=
  ["monday", "tuesday", "wednesday", "thursday", "friday", "saturday",
   "sunday"].getD n ""

/-- Python `str.title()` on the single-word strings this program titles
    (cities, weekday names): uppercase the first character, lowercase the
    rest. -/
def title (s : String) : String :=
  match s.data with
  | [] => ""
  | c :: cs => String.mk (upperChar c :: cs.map lowerChar)

/-! ## Appointment records and the Supabase table model -/

/-- One row of the `appointments` table, as built by `book_appointment`
    (src/main.py lines 277–287).  The `date` field holds the ordinal of the
    date whose `isoformat()` string the Python dict stores; `isoformat` is
    injective on ordinals, so row equality is preserved. -/
structure Appt where
  id : String
  patient_name : String
  patient_id : String
  city : String
  date : Nat
  slot : String
  notes : String
  calendar_event_id : Option String
  calendar_link : Option String
deriving DecidableEq

/-- Outcome of the calendar collaborator call in `book_appointment`
    (src/main.py lines 300–327): `exn` a raised exception (timeout,
    connection error), `non2xx` a response with `resp.ok` false, `badJson`
    a 2xx response whose body fails to parse, `ok eid lk` a 2xx JSON
    response carrying the optional `eventId` and `htmlLink` fields. -/
inductive CalOutcome
  | exn
  | non2xx
  | badJson
  | ok (eventId : Option String) (link : Option String)
deriving DecidableEq

/-- The two `supabase.table("appointments").update(...)` calls on calendar
    success (src/main.py lines 313–319): set `calendar_link` on the rows
    with the booked id when `htmlLink` is present, then `calendar_event_id`
    when `eventId` is present; every failure outcome leaves the table
    untouched. -/
def applyCal (db : List Appt) (apptId : String) : CalOutcome → List Appt
  | .ok eid lk =>
      let db1 := match lk with
        | some l =>
            db.map (fun a =>
              if a.id = apptId then { a with calendar_link := some l } else a)
        | none => db
      match eid with
      | some e =>
          db1.map (fun a =>
            if a.id = apptId then { a with calendar_event_id := some e } else a)
      | none => db1
  | _ => db

/-- The distinct returns of `book_appointment` (each constructor is one of
    the function's `return` statements, carrying the data its message
    interpolates). -/
inductive BookResult
  | sundayLeave
  | cityUnsupported
  | dayUnparseable
  | wrongBranch (city weekdayNm alternate : String)
  | invalidSlot
  | invalidSlotFormat
  | saveFailed
  | confirmed (apptId patient city : String) (dateOrd : Nat) (slot : String)
deriving DecidableEq

/-- The appointment dict built at src/main.py lines 277–287: ids are derived
    from the current length of the local appointment cache (kept equal to
    the table after every operation's reload). -/
def mkAppt (dbLen : Nat) (patient_name cityNorm : String) (o : Nat)
    (slot notes : String) : Appt :=
  { id := "APT" ++ toString (dbLen + 1001),
    patient_name := patient_name,
    patient_id := "PID" ++ toString (dbLen + 5001),
    city := title cityNorm,
    date := o,
    slot := slot,
    notes := notes,
    calendar_event_id := none,
    calendar_link := none }

/-- `book_appointment` (src/main.py lines 228–341).  `db` is the Supabase
    table's rows (equal to the local cache, which is reloaded after every
    mutation), `insertOk` whether the insert call returns data rather than
    failing, `cal` the calendar collaborator's outcome, `today` the embedded
    `date.today()`.  Returns the produced result and the table's new rows. -/
def book_appointment (db : List Appt) (insertOk : Bool) (cal : CalOutcome)
    (today : Nat) (patient_name city day slot notes : String) :
    BookResult × List Appt :=
  let c := pyStrip (pyLower city)
  let day_input := pyStrip day
  let slotT := pyStrip slot
  if pyLower day_input = "sunday" then (.sundayLeave, db)
  else
    match schedule c with
    | none => (.cityUnsupported, db)
    | some days =>
      match parse_day_to_date day_input today with
      | none => (.dayUnparseable, db)
      | some o =>
        let wd := weekdayName (weekday o)
        if wd = "sunday" then (.sundayLeave, db)
        else if wd ∉ days then
          let alt := if c = "sialkot" then "lahore" else "sialkot"
          (.wrongBranch (title c) (title wd) (title alt), db)
        else if slotT ∉ time_slots then (.invalidSlot, db)
        else
          match parse_slot_times slotT with
          | none => (.invalidSlotFormat, db)
          | some _times =>
            let appt := mkAppt db.length patient_name c o slotT notes
            if insertOk then
              (.confirmed appt.id patient_name (title c) o slotT,
               applyCal (db ++ [appt]) appt.id cal)
            else (.saveFailed, db)

/-- The distinct returns of `check_availability` (src/main.py lines
    199–226), carrying the data each message interpolates; `available`
    carries the slot list the message joins. -/
inductive AvailResult
  | sundayLeave
  | cityUnsupported
  | available (city day : String) (slots : List String)
  | alternateAvail (city day alternate : String)
  | notAvailable (city day : String)
deriving DecidableEq

/-- `check_availability` (src/main.py lines 199–226).  The method can see
    the Supabase-backed state through `self`; `db` passes those rows in so
    that the method's independence from them is statable — the body never
    consults them. -/
def check_availability (db : List Appt) (city day : String) : AvailResult :=
  let _ := db
  let c := pyStrip (pyLower city)
  let d := pyStrip (pyLower day)
  if d = "sunday" then .sundayLeave
  else
    match schedule c with
    | none => .cityUnsupported
    | some days =>
      if d ∈ days then .available (title c) (title d) time_slots
      else
        let alt := if c = "sialkot" then "lahore" else "sialkot"
        if d ∈ (schedule alt).getD [] then .alternateAvail (title c) (title d) (title alt)
        else .notAvailable (title c) (title d)

/-! ## Cancellation (src/main.py lines 158–189 and 366–435) -/

/-- `_delete_appointment_db` (src/main.py lines 158–165): issue the delete
    and return `True` whatever it removed; only a raised exception yields
    `False` (modelled by `raises`, which also leaves the rows unchanged). -/
def delete_appointment_db (db : List Appt) (raises : Bool)
    (appointment_id : String) : List Appt × Bool :=
  if raises then (db, false)
  else (db.filter (fun a => ¬ a.id = appointment_id), true)

/-- `_find_appointment_db_by_id` (src/main.py lines 167–174): first row
    whose `id` equals the query exactly. -/
def find_appointment_db_by_id (db : List Appt) (appointment_id : String) :
    Option Appt :=
  db.find? (fun a => a.id = appointment_id)

/-- `_find_appointment_db_by_patient_and_date` (src/main.py lines 176–189):
    first row matching the patient name case-insensitively (`ilike` without
    wildcards) and the date string exactly (the stored value is the
    booking date's `isoformat()`). -/
def find_appointment_db_by_patient_and_date (db : List Appt)
    (patient_name date_str : String) : Option Appt :=
  db.find? (fun a =>
    pyLower a.patient_name = pyLower patient_name ∧ isoformat a.date = date_str)

/-- The distinct returns of `cancel_appointment`, carrying the cancelled
    row's snapshot on success. -/
inductive CancelResult
  | inputError
  | notFound
  | deleteFailed
  | success (a : Appt)
deriving DecidableEq

/-- `cancel_appointment` (src/main.py lines 366–435).  The Supabase table is
    shared across sessions and is read by two separate calls, so its rows at
    the lookup and at the delete are distinct parameters `dbLookup` and
    `dbDelete` (pass the same rows for a quiescent store).  `deleteRaises`
    is the delete call raising; `calendarRaises` is the calendar delete-event
    request raising — the code wraps it in `try/except` and ignores the
    response entirely, so the parameter influences nothing. -/
def cancel_appointment (dbLookup dbDelete : List Appt)
    (deleteRaises calendarRaises : Bool)
    (appointment_id patient_name date : String) : CancelResult × List Appt :=
  let idN := pyUpper (pyStrip appointment_id)
  let nameN := pyLower (pyStrip patient_name)
  let dateN := pyStrip date
  if idN = "" ∧ (nameN = "" ∨ dateN = "") then (.inputError, dbLookup)
  else
    let found := if ¬ idN = "" then find_appointment_db_by_id dbLookup idN
                 else find_appointment_db_by_patient_and_date dbLookup nameN dateN
    match found with
    | none => (.notFound, dbLookup)
    | some a =>
      let _ := calendarRaises
      let res := delete_appointment_db dbDelete deleteRaises a.id
      if res.2 then (.success a, res.1) else (.deleteFailed, res.1)

/-! ## Helper lemmas -/

/-- Stripping is idempotent. -/
lemma pyStrip_idem (s : String) : pyStrip (pyStrip s) = pyStrip s := by
  unfold pyStrip
  congr 1
  have hB : List.dropWhile isSpaceChar
      (List.rdropWhile isSpaceChar (s.data.dropWhile isSpaceChar))
      = List.rdropWhile isSpaceChar (s.data.dropWhile isSpaceChar) := by
    rcases hE : List.rdropWhile isSpaceChar (s.data.dropWhile isSpaceChar)
      with _ | ⟨c, t⟩
    · rfl
    · obtain ⟨u, hu⟩ := List.rdropWhile_prefix isSpaceChar
        (s.data.dropWhile isSpaceChar)
      rw [hE] at hu
      have hA : s.data.dropWhile isSpaceChar = c :: (t ++ u) := by
        rw [← hu]; rfl
      have hlen : 0 < (s.data.dropWhile isSpaceChar).length := by
        rw [hA]; simp
      have hhead := List.dropWhile_get_zero_not isSpaceChar s.data hlen
      have hc : ¬ isSpaceChar c = true := by
        revert hhead
        rw [show (s.data.dropWhile isSpaceChar).get ⟨0, hlen⟩ = c by
          rw [List.get_eq_getElem]
          simp [hA]]
        exact id
      rw [List.dropWhile_cons, if_neg hc]
  rw [hB, List.rdropWhile_idempotent]

/-- `weekday` unfolded. -/
lemma weekday_def (o : Nat) : weekday o = (o + 6) % 7 := rfl

/-- `weekday` is always below 7. -/
lemma weekday_lt (o : Nat) : weekday o < 7 := Nat.mod_lt _ (by omega)

/-- `next_weekday_date` as plain addition. -/
lemma next_weekday_date_eq (t o : Nat) :
    next_weekday_date t o = o + (t + 7 - weekday o) % 7 := by
  show (if (t + 7 - weekday o) % 7 = 0 then o
        else o + (t + 7 - weekday o) % 7) = o + (t + 7 - weekday o) % 7
  split <;> omega

/-- The date `next_weekday_date` returns falls on the requested weekday. -/
lemma weekday_next_weekday (t o : Nat) (ht : t < 7) :
    weekday (next_weekday_date t o) = t := by
  have h7 := weekday_lt o
  rw [next_weekday_date_eq, weekday_def, weekday_def] at *
  omega

/-- An input normalising to `"sunday"` resolves through the weekday-name
    branch to the next Sunday. -/
lemma parse_sunday_case (s : String) (today : Nat)
    (h : pyLower (pyStrip s) = "sunday") :
    parse_day_to_date s today = some (next_weekday_date 6 today) := by
  unfold parse_day_to_date
  rw [h]
  rfl

/-- Every canonical slot string parses. -/
lemma slots_parse (s : String) (h : s ∈ time_slots) :
    (parse_slot_times s).isSome := by
  fin_cases h <;> decide

/-- The only cities in `schedule`, with their day lists. -/
lemma schedule_cases (c : String) (days : List String)
    (h : schedule c = some days) :
    (c = "sialkot" ∧ days = sialkot_days) ∨ (c = "lahore" ∧ days = lahore_days) := by
  unfold schedule at h
  split at h
  · exact Or.inl ⟨by assumption, (Option.some.inj h).symm⟩
  · split at h
    · exact Or.inr ⟨by assumption, (Option.some.inj h).symm⟩
    · exact absurd h (by simp)

/-- `weekdayName` hits `"sunday"` only at index 6 (below 7). -/
lemma weekdayName_sunday (n : Nat) (hn : n < 7) :
    weekdayName n = "sunday" ↔ n = 6 := by
  interval_cases n <;> simp [weekdayName]

/-! ## C7 -/

/-- C7: for every weekday index and reference date, `next_weekday_date`
    returns the next date on or after the reference falling on that weekday,
    inclusive of the reference itself (0-day offset, never a 7-day
    wraparound), and `parse_day_to_date` resolves a bare weekday name
    (case-insensitively) through it. -/
theorem C7_next_weekday (target today : Nat) (ht : target < 7) :
    weekday (next_weekday_date target today) = target
    ∧ today ≤ next_weekday_date target today
    ∧ next_weekday_date target today < today + 7
    ∧ (∀ e, today ≤ e → e < next_weekday_date target today → weekday e ≠ target)
    ∧ (weekday today = target → next_weekday_date target today = today)
    ∧ (∀ nm, weekday_index (pyLower (pyStrip nm)) = some target →
        parse_day_to_date nm today = some (next_weekday_date target today)) := by
  have h7 := weekday_lt today
  refine ⟨weekday_next_weekday target today ht, ?_, ?_, ?_, ?_, ?_⟩
  · rw [next_weekday_date_eq]; omega
  · rw [next_weekday_date_eq]; simp only [weekday_def] at *; omega
  · intro e h1 h2
    rw [next_weekday_date_eq] at h2
    simp only [weekday_def] at *
    omega
  · intro h
    rw [next_weekday_date_eq, h]
    omega
  · intro nm hnm
    have hcase : pyLower (pyStrip nm) = "monday" ∧ target = 0
        ∨ pyLower (pyStrip nm) = "tuesday" ∧ target = 1
        ∨ pyLower (pyStrip nm) = "wednesday" ∧ target = 2
        ∨ pyLower (pyStrip nm) = "thursday" ∧ target = 3
        ∨ pyLower (pyStrip nm) = "friday" ∧ target = 4
        ∨ pyLower (pyStrip nm) = "saturday" ∧ target = 5
        ∨ pyLower (pyStrip nm) = "sunday" ∧ target = 6 := by
      unfold weekday_index at hnm
      split_ifs at hnm <;> simp_all
    unfold parse_day_to_date
    rcases hcase with ⟨h, rfl⟩ | ⟨h, rfl⟩ | ⟨h, rfl⟩ | ⟨h, rfl⟩ | ⟨h, rfl⟩
      | ⟨h, rfl⟩ | ⟨h, rfl⟩ <;> rw [h] <;> rfl

/-- Witness for C7 at weekday 5 (Saturday) and reference date 739570
    (2025-11-15, itself a Saturday). -/
theorem C7_witness :
    weekday (next_weekday_date 5 739570) = 5
    ∧ 739570 ≤ next_weekday_date 5 739570
    ∧ next_weekday_date 5 739570 < 739570 + 7
    ∧ (∀ e, 739570 ≤ e → e < next_weekday_date 5 739570 → weekday e ≠ 5)
    ∧ (weekday 739570 = 5 → next_weekday_date 5 739570 = 739570)
    ∧ (∀ nm, weekday_index (pyLower (pyStrip nm)) = some 5 →
        parse_day_to_date nm 739570 = some (next_weekday_date 5 739570)) :=
  C7_next_weekday 5 739570 (by decide)

/-! ## C1 -/

/-- C1 counterexample: booking the same valid (branch, date, slot) triple
    twice in sequence (Sialkot, Monday 2025-11-17, the 10 AM slot, insert
    succeeding, calendar collaborator down) yields success on BOTH attempts
    — not a "slot already booked" conflict on the second — and the record
    store then holds two appointments with identical branch, date and slot.
    `book_appointment` performs no conflict query before inserting. -/
theorem C1_counterexample :
    (let s1 := book_appointment [] true .exn 739565 "ali" "sialkot"
        "2025-11-17" "10:00 AM - 11:00 AM" "";
     let s2 := book_appointment s1.2 true .exn 739565 "bilal" "sialkot"
        "2025-11-17" "10:00 AM - 11:00 AM" "";
     s1.1 = BookResult.confirmed "APT1001" "ali" "Sialkot" 739572
        "10:00 AM - 11:00 AM"
     ∧ s2.1 = BookResult.confirmed "APT1002" "bilal" "Sialkot" 739572
        "10:00 AM - 11:00 AM"
     ∧ s2.2.map (fun a => (a.city, a.date, a.slot)) =
        [("Sialkot", 739572, "10:00 AM - 11:00 AM"),
         ("Sialkot", 739572, "10:00 AM - 11:00 AM")]) :=
  ⟨rfl, rfl, rfl⟩

/-! ## C2 -/

/-- C2 counterexample: with an existing booking for (Sialkot, Monday
    2025-11-17, the 10 AM slot) in the record store, `check_availability`
    for Sialkot on Monday still returns all 8 canonical slots, including
    the already-booked one — it does not subtract the store's bookings
    (and, taking only a weekday name, it could not: it never sees a date). -/
theorem C2_counterexample :
    check_availability
        [mkAppt 0 "ali" "sialkot" 739572 "10:00 AM - 11:00 AM" ""]
        "sialkot" "monday"
      = AvailResult.available "Sialkot" "Monday" time_slots
    ∧ time_slots.length = 8
    ∧ "10:00 AM - 11:00 AM" ∈ time_slots :=
  ⟨rfl, rfl, by decide⟩

/-! ## C5 -/

/-- C5: ids are derived from the current row count (`len(self.appointments)
    + 1001`), so after a cancellation the count drops and the next booking
    reuses an id already handed out.  Here: book ali (APT1001), book bilal
    (APT1002), cancel APT1001, book carol — carol also receives APT1002,
    so two appointments created by `book_appointment` carry the same id. -/
theorem C5_id_reuse :
    (let s1 := book_appointment [] true .exn 739565 "ali" "sialkot"
        "2025-11-17" "10:00 AM - 11:00 AM" "";
     let s2 := book_appointment s1.2 true .exn 739565 "bilal" "sialkot"
        "2025-11-17" "11:00 AM - 12:00 PM" "";
     let s3 := cancel_appointment s2.2 s2.2 false false "APT1001" "" "";
     let s4 := book_appointment s3.2 true .exn 739565 "carol" "sialkot"
        "2025-11-17" "12:00 PM - 01:00 PM" "";
     s1.1 = BookResult.confirmed "APT1001" "ali" "Sialkot" 739572
        "10:00 AM - 11:00 AM"
     ∧ s2.1 = BookResult.confirmed "APT1002" "bilal" "Sialkot" 739572
        "11:00 AM - 12:00 PM"
     ∧ s3.1 = CancelResult.success
        (mkAppt 0 "ali" "sialkot" 739572 "10:00 AM - 11:00 AM" "")
     ∧ s4.1 = BookResult.confirmed "APT1002" "carol" "Sialkot" 739572
        "12:00 PM - 01:00 PM") :=
  ⟨rfl, rfl, rfl, rfl⟩

/-! ## C8 -/

/-- C8 counterexample: the month-day-year long form and the comma variant,
    both of which the claim says `parseDate` accepts, are rejected
    (`parse_day_to_date` only tries `%Y-%m-%d`, `%d %B %Y`, `%d %b %Y` and
    bare weekday names). -/
theorem C8_counterexample :
    parse_day_to_date "November 15 2025" 739555 = none
    ∧ parse_day_to_date "15 November, 2025" 739555 = none :=
  ⟨rfl, rfl⟩

/-- C8 amended: `parse_day_to_date` accepts, in priority order, ISO
    `YYYY-MM-DD`, then day-month-year with a full or abbreviated month name
    (day first, no comma), then bare weekday names case-insensitively; any
    other input yields `none` — a `ParseError` value, not an exception, and
    never today's date. -/
theorem C8_amended_formats :
    (∀ today, parse_day_to_date "2025-11-15" today = some (toOrdinal 2025 11 15))
    ∧ (∀ today, parse_day_to_date "  15 November 2025 " today
        = some (toOrdinal 2025 11 15))
    ∧ (∀ today, parse_day_to_date "15 nov 2025" today
        = some (toOrdinal 2025 11 15))
    ∧ (∀ today, parse_day_to_date "SATURDAY" today
        = some (next_weekday_date 5 today))
    ∧ (∀ today, parse_day_to_date "November 15 2025" today = none)
    ∧ (∀ today, parse_day_to_date "15 November, 2025" today = none)
    ∧ (∀ today, parse_day_to_date "11/15/2025" today = none)
    ∧ (∀ today, parse_day_to_date "2025-02-30" today = none)
    ∧ (∀ today, parse_day_to_date "" today = none) :=
  ⟨fun _ => rfl, fun _ => rfl, fun _ => rfl, fun _ => rfl, fun _ => rfl,
   fun _ => rfl, fun _ => rfl, fun _ => rfl, fun _ => rfl⟩

/-! ## C9 -/

/-- C9 counterexample: the three single-time forms the claim says
    `parseSlot` accepts (`"4 PM"`, `"4:00 PM"`, 24-hour `"16:00"`) are all
    rejected — `parse_slot_times` requires a `-`-separated range whose two
    sides each match `%I:%M %p`. -/
theorem C9_counterexample :
    parse_slot_times "4 PM" = none
    ∧ parse_slot_times "4:00 PM" = none
    ∧ parse_slot_times "16:00" = none :=
  ⟨rfl, rfl, rfl⟩

/-- C9 amended: `parse_slot_times` accepts only the range form
    `H:MM AM/PM - H:MM AM/PM` (every canonical slot parses; extra internal
    whitespace and meridiem case variance are tolerated, a missing space
    before the meridiem is not); single times yield `none`; a range
    denoting a non-canonical time is accepted by the parser, and
    `book_appointment` rejects it through the slot-membership check, which
    runs before the parser is ever called. -/
theorem C9_amended_parse_slot :
    time_slots.all (fun s => (parse_slot_times s).isSome) = true
    ∧ parse_slot_times "10:00 AM - 11:00 AM" = some ((10, 0), (11, 0))
    ∧ parse_slot_times "10:00   am   -   11:00 Am" = some ((10, 0), (11, 0))
    ∧ parse_slot_times "7:00 pM - 8:00 PM" = some ((19, 0), (20, 0))
    ∧ parse_slot_times "12:00 PM - 01:00 PM" = some ((12, 0), (13, 0))
    ∧ parse_slot_times "4 PM" = none
    ∧ parse_slot_times "4:00 PM" = none
    ∧ parse_slot_times "16:00" = none
    ∧ parse_slot_times "10:00AM - 11:00 AM" = none
    ∧ parse_slot_times "03:00 PM - 04:00 PM" = some ((15, 0), (16, 0))
    ∧ (book_appointment [] true .exn 739565 "ali" "sialkot" "2025-11-17"
        "03:00 PM - 04:00 PM" "").1 = BookResult.invalidSlot
    ∧ (book_appointment [] true .exn 739565 "ali" "sialkot" "2025-11-17"
        "03:00 PM - 04:00 PM" "").2 = [] :=
  ⟨rfl, rfl, rfl, rfl, rfl, rfl, rfl, rfl, rfl, rfl, rfl, rfl⟩

/-- Unfolding of `book_appointment` on a fully valid request: supported
    city, parseable day whose weekday is scheduled at that city, canonical
    slot, insert succeeding.  No hypothesis constrains the existing rows
    `db`: the function runs no conflict query, so the result is confirmed
    and the new row appended whatever `db` already contains. -/
lemma book_valid_confirmed
    (db : List Appt) (cal : CalOutcome) (today : Nat)
    (patient city day slot notes : String)
    (days : List String) (o : Nat)
    (hcity : schedule (pyStrip (pyLower city)) = some days)
    (hparse : parse_day_to_date (pyStrip day) today = some o)
    (hwd : weekdayName (weekday o) ∈ days)
    (hslot : pyStrip slot ∈ time_slots) :
    book_appointment db true cal today patient city day slot notes
      = (.confirmed ("APT" ++ toString (db.length + 1001)) patient
           (title (pyStrip (pyLower city))) o (pyStrip slot),
         applyCal
           (db ++ [mkAppt db.length patient (pyStrip (pyLower city)) o
                     (pyStrip slot) notes])
           ("APT" ++ toString (db.length + 1001)) cal) := by
  have hdays2 := schedule_cases _ _ hcity
  have hwdsun : ¬ weekdayName (weekday o) = "sunday" := by
    intro h
    rcases hdays2 with ⟨_, hd⟩ | ⟨_, hd⟩ <;> subst hd <;> rw [h] at hwd <;>
      exact absurd hwd (by decide)
  have hn6 : ¬ weekday o = 6 := by
    intro h
    exact hwdsun (by rw [h]; rfl)
  have hsun : ¬ pyLower (pyStrip day) = "sunday" := by
    intro h
    have hps : pyLower (pyStrip (pyStrip day)) = "sunday" := by
      rw [pyStrip_idem]; exact h
    have h2 := parse_sunday_case (pyStrip day) today hps
    rw [hparse] at h2
    have ho : o = next_weekday_date 6 today := Option.some.inj h2
    exact hn6 (by rw [ho]; exact weekday_next_weekday 6 today (by omega))
  have hnotin : ¬ weekdayName (weekday o) ∉ days := fun hc => hc hwd
  have hslotin : ¬ pyStrip slot ∉ time_slots := fun hc => hc hslot
  obtain ⟨tms, htms⟩ := Option.isSome_iff_exists.mp
    (slots_parse (pyStrip slot) hslot)
  simp only [book_appointment]
  rw [if_neg hsun]
  simp only [hcity, hparse, htms]
  rw [if_neg hwdsun, if_neg hnotin, if_neg hslotin]
  rfl

/-- C1 amended: `book_appointment` runs no conflict check against existing
    rows.  For every record-store content `db` — including one already
    holding an appointment with the identical (branch, date, slot) — a
    valid booking request is confirmed and its row appended unconditionally
    (calendar collaborator failing here, so the inserted row is returned
    as-is); in particular booking the same valid triple twice yields
    success twice, and the distinct-slots invariant does not hold. -/
theorem C1_amended_no_conflict_check
    (db : List Appt) (today : Nat) (patient city day slot notes : String)
    (days : List String) (o : Nat)
    (hcity : schedule (pyStrip (pyLower city)) = some days)
    (hparse : parse_day_to_date (pyStrip day) today = some o)
    (hwd : weekdayName (weekday o) ∈ days)
    (hslot : pyStrip slot ∈ time_slots) :
    book_appointment db true .exn today patient city day slot notes
      = (.confirmed ("APT" ++ toString (db.length + 1001)) patient
           (title (pyStrip (pyLower city))) o (pyStrip slot),
         db ++ [mkAppt db.length patient (pyStrip (pyLower city)) o
                  (pyStrip slot) notes]) := by
  rw [book_valid_confirmed db .exn today patient city day slot notes days o
    hcity hparse hwd hslot]
  rfl

/-- Witness for the C1 amended theorem: with a booking for (Sialkot,
    2025-11-17, 10 AM) already stored, the identical request is confirmed
    again and appended. -/
theorem C1_amended_witness :
    book_appointment
        [mkAppt 0 "ali" "sialkot" 739572 "10:00 AM - 11:00 AM" ""]
        true .exn 739565 "bilal" "sialkot" "2025-11-17"
        "10:00 AM - 11:00 AM" ""
      = (.confirmed "APT1002" "bilal" "Sialkot" 739572 "10:00 AM - 11:00 AM",
         [mkAppt 0 "ali" "sialkot" 739572 "10:00 AM - 11:00 AM" "",
          mkAppt 1 "bilal" "sialkot" 739572 "10:00 AM - 11:00 AM" ""]) :=
  C1_amended_no_conflict_check
    [mkAppt 0 "ali" "sialkot" 739572 "10:00 AM - 11:00 AM" ""]
    739565 "bilal" "sialkot" "2025-11-17" "10:00 AM - 11:00 AM" ""
    sialkot_days 739572 rfl (by decide) (by decide) (by decide)

/-! ## C3 -/

/-- C3: the result reported by `book_appointment` never depends on the
    calendar collaborator's outcome — for any two outcomes the returned
    result is identical — and on a valid, persisted booking whose calendar
    call fails in any of the three ways (exception, non-2xx, bad JSON) the
    booking is confirmed and the stored row keeps `calendar_event_id` and
    `calendar_link` at `none`, updatable later. -/
theorem C3_calendar_failure_still_confirmed :
    (∀ (db : List Appt) (insertOk : Bool) (today : Nat)
        (patient city day slot notes : String) (c₁ c₂ : CalOutcome),
        (book_appointment db insertOk c₁ today patient city day slot notes).1
          = (book_appointment db insertOk c₂ today patient city day slot notes).1)
    ∧ (∀ (db : List Appt) (today : Nat)
        (patient city day slot notes : String) (days : List String) (o : Nat)
        (c : CalOutcome),
        schedule (pyStrip (pyLower city)) = some days →
        parse_day_to_date (pyStrip day) today = some o →
        weekdayName (weekday o) ∈ days →
        pyStrip slot ∈ time_slots →
        (c = .exn ∨ c = .non2xx ∨ c = .badJson) →
        book_appointment db true c today patient city day slot notes
          = (.confirmed ("APT" ++ toString (db.length + 1001)) patient
               (title (pyStrip (pyLower city))) o (pyStrip slot),
             db ++ [mkAppt db.length patient (pyStrip (pyLower city)) o
                      (pyStrip slot) notes])
          ∧ (mkAppt db.length patient (pyStrip (pyLower city)) o
               (pyStrip slot) notes).calendar_event_id = none
          ∧ (mkAppt db.length patient (pyStrip (pyLower city)) o
               (pyStrip slot) notes).calendar_link = none) := by
  constructor
  · intro db insertOk today patient city day slot notes c₁ c₂
    simp only [book_appointment]
    by_cases h1 : pyLower (pyStrip day) = "sunday"
    · rw [if_pos h1, if_pos h1]
    · rw [if_neg h1, if_neg h1]
      cases h2 : schedule (pyStrip (pyLower city)) with
      | none => simp only [h2]
      | some days =>
        simp only [h2]
        cases h3 : parse_day_to_date (pyStrip day) today with
        | none => simp only [h3]
        | some o =>
          simp only [h3]
          by_cases h4 : weekdayName (weekday o) = "sunday"
          · rw [if_pos h4, if_pos h4]
          · rw [if_neg h4, if_neg h4]
            by_cases h5 : weekdayName (weekday o) ∉ days
            · rw [if_pos h5, if_pos h5]
            · rw [if_neg h5, if_neg h5]
              by_cases h6 : pyStrip slot ∉ time_slots
              · rw [if_pos h6, if_pos h6]
              · rw [if_neg h6, if_neg h6]
                cases h7 : parse_slot_times (pyStrip slot) with
                | none => simp only [h7]
                | some tms =>
                  simp only [h7]
                  cases insertOk <;> rfl
  · intro db today patient city day slot notes days o c
      hcity hparse hwd hslot hfail
    refine ⟨?_, rfl, rfl⟩
    rw [book_valid_confirmed db c today patient city day slot notes days o
      hcity hparse hwd hslot]
    rcases hfail with h | h | h <;> subst h <;> rfl

/-- Witness for C3: concrete valid booking, comparing a failing calendar
    call with a succeeding one, and evaluating the failing case fully. -/
theorem C3_witness :
    ((book_appointment [] true .non2xx 739565 "ali" "sialkot" "2025-11-17"
        "10:00 AM - 11:00 AM" "").1
      = (book_appointment [] true (.ok (some "EV1") (some "L1")) 739565 "ali"
          "sialkot" "2025-11-17" "10:00 AM - 11:00 AM" "").1)
    ∧ (book_appointment [] true .non2xx 739565 "ali" "sialkot" "2025-11-17"
        "10:00 AM - 11:00 AM" ""
      = (.confirmed "APT1001" "ali" "Sialkot" 739572 "10:00 AM - 11:00 AM",
         [mkAppt 0 "ali" "sialkot" 739572 "10:00 AM - 11:00 AM" ""])
      ∧ (mkAppt 0 "ali" "sialkot" 739572
          "10:00 AM - 11:00 AM" "").calendar_event_id = none
      ∧ (mkAppt 0 "ali" "sialkot" 739572
          "10:00 AM - 11:00 AM" "").calendar_link = none) :=
  ⟨C3_calendar_failure_still_confirmed.1 [] true 739565 "ali" "sialkot"
      "2025-11-17" "10:00 AM - 11:00 AM" "" .non2xx (.ok (some "EV1") (some "L1")),
   C3_calendar_failure_still_confirmed.2 [] 739565 "ali" "sialkot"
      "2025-11-17" "10:00 AM - 11:00 AM" "" sialkot_days 739572 .non2xx
      rfl (by decide) (by decide) (by decide) (Or.inr (Or.inl rfl))⟩

/-! ## C2 (amended) -/

/-- C2 amended: `check_availability` never consults the record store — its
    result is identical for any two row sets — and for a supported city on
    a weekday in that city's schedule (never `"sunday"`, which is in
    neither) it returns all 8 canonical slots in canonical order,
    regardless of existing bookings.  (The method receives only a weekday
    name, never a calendar date, so it could not subtract bookings for a
    (branch, date) pair.) -/
theorem C2_amended_ignores_store :
    (∀ (db db' : List Appt) (city day : String),
        check_availability db city day = check_availability db' city day)
    ∧ (∀ (db : List Appt) (city day : String) (days : List String),
        schedule (pyStrip (pyLower city)) = some days →
        pyStrip (pyLower day) ∈ days →
        check_availability db city day
          = .available (title (pyStrip (pyLower city)))
              (title (pyStrip (pyLower day))) time_slots)
    ∧ time_slots.length = 8 := by
  refine ⟨fun _ _ _ _ => rfl, ?_, rfl⟩
  intro db city day days hcity hd
  have hdsun : ¬ pyStrip (pyLower day) = "sunday" := by
    intro h
    rcases schedule_cases _ _ hcity with ⟨_, hdays⟩ | ⟨_, hdays⟩ <;>
      subst hdays <;> rw [h] at hd <;> exact absurd hd (by decide)
  have hdin : ¬ pyStrip (pyLower day) ∉ days := fun hc => hc hd
  simp only [check_availability]
  rw [if_neg hdsun]
  simp only [hcity]
  rw [if_pos hd]

/-- Witness for the C2 amended theorem at a concrete store and request. -/
theorem C2_witness :
    check_availability
        [mkAppt 0 "ali" "sialkot" 739572 "10:00 AM - 11:00 AM" ""]
        "Sialkot" " Monday "
      = .available "Sialkot" "Monday" time_slots :=
  C2_amended_ignores_store.2.1
    [mkAppt 0 "ali" "sialkot" 739572 "10:00 AM - 11:00 AM" ""]
    "Sialkot" " Monday " sialkot_days rfl (by decide)

/-! ## C6 -/

/-- C6: for a supported city, booking a date whose weekday is Sunday always
    returns the Sunday-closed conflict, and booking a date whose weekday is
    scheduled at the other branch returns the conflict naming the alternate
    branch; in both cases the record store is returned unchanged — control
    flow never reaches the insert — whatever the insert flag or calendar
    outcome would have done. -/
theorem C6_closed_days_no_persist :
    (∀ (db : List Appt) (insertOk : Bool) (cal : CalOutcome) (today : Nat)
        (patient city day slot notes : String) (days : List String) (o : Nat),
        schedule (pyStrip (pyLower city)) = some days →
        parse_day_to_date (pyStrip day) today = some o →
        weekday o = 6 →
        book_appointment db insertOk cal today patient city day slot notes
          = (.sundayLeave, db))
    ∧ (∀ (db : List Appt) (insertOk : Bool) (cal : CalOutcome) (today : Nat)
        (patient city day slot notes : String) (days : List String) (o : Nat),
        schedule (pyStrip (pyLower city)) = some days →
        parse_day_to_date (pyStrip day) today = some o →
        weekdayName (weekday o) ∈
          (schedule (if pyStrip (pyLower city) = "sialkot" then "lahore"
                     else "sialkot")).getD [] →
        book_appointment db insertOk cal today patient city day slot notes
          = (.wrongBranch (title (pyStrip (pyLower city)))
               (title (weekdayName (weekday o)))
               (title (if pyStrip (pyLower city) = "sialkot" then "lahore"
                       else "sialkot")), db)) := by
  constructor
  · intro db insertOk cal today patient city day slot notes days o
      hcity hparse h6
    unfold book_appointment
    by_cases h1 : pyLower (pyStrip day) = "sunday"
    · rw [if_pos h1]
    · rw [if_neg h1]
      simp only [hcity, hparse]
      rw [if_pos (show weekdayName (weekday o) = "sunday" by rw [h6]; rfl)]
  · intro db insertOk cal today patient city day slot notes days o
      hcity hparse halt
    have hc2 := schedule_cases _ _ hcity
    have hwdalt : weekdayName (weekday o) ∈ lahore_days
        ∧ pyStrip (pyLower city) = "sialkot" ∧ days = sialkot_days
        ∨ weekdayName (weekday o) ∈ sialkot_days
        ∧ pyStrip (pyLower city) = "lahore" ∧ days = lahore_days := by
      rcases hc2 with ⟨hcc, hdays⟩ | ⟨hcc, hdays⟩
      · rw [hcc] at halt
        exact Or.inl ⟨by simpa [schedule] using halt, hcc, hdays⟩
      · rw [hcc] at halt
        exact Or.inr ⟨by simpa [schedule] using halt, hcc, hdays⟩
    have hwdsun : ¬ weekdayName (weekday o) = "sunday" := by
      intro h
      rcases hwdalt with ⟨hm, _, _⟩ | ⟨hm, _, _⟩ <;> rw [h] at hm <;>
        exact absurd hm (by decide)
    have hn6 : ¬ weekday o = 6 := fun h => hwdsun (by rw [h]; rfl)
    have hsun : ¬ pyLower (pyStrip day) = "sunday" := by
      intro h
      have hps : pyLower (pyStrip (pyStrip day)) = "sunday" := by
        rw [pyStrip_idem]; exact h
      have h2 := parse_sunday_case (pyStrip day) today hps
      rw [hparse] at h2
      have ho : o = next_weekday_date 6 today := Option.some.inj h2
      exact hn6 (by rw [ho]; exact weekday_next_weekday 6 today (by omega))
    have hnotin : weekdayName (weekday o) ∉ days := by
      rcases hwdalt with ⟨hm, _, hdays⟩ | ⟨hm, _, hdays⟩ <;> subst hdays <;>
        intro hin <;>
        simp only [lahore_days, sialkot_days, List.mem_cons,
          List.not_mem_nil, or_false] at hm <;>
        rcases hm with h | h | h <;> rw [h] at hin <;>
        exact absurd hin (by decide)
    unfold book_appointment
    rw [if_neg hsun]
    simp only [hcity, hparse]
    rw [if_neg hwdsun, if_pos hnotin]

/-- Witness for C6: a Sunday ISO date and a Lahore-day request at Sialkot,
    both leaving the store unchanged. -/
theorem C6_witness :
    book_appointment [] true .exn 739565 "ali" "sialkot" "2025-11-16"
        "10:00 AM - 11:00 AM" "" = (.sundayLeave, [])
    ∧ book_appointment [] true .exn 739565 "ali" "sialkot" "2025-11-20"
        "10:00 AM - 11:00 AM" "" = (.wrongBranch "Sialkot" "Thursday" "Lahore", []) :=
  ⟨C6_closed_days_no_persist.1 [] true .exn 739565 "ali" "sialkot"
      "2025-11-16" "10:00 AM - 11:00 AM" "" sialkot_days 739571
      rfl (by decide) (by decide),
   C6_closed_days_no_persist.2 [] true .exn 739565 "ali" "sialkot"
      "2025-11-20" "10:00 AM - 11:00 AM" "" sialkot_days 739575
      rfl (by decide) (by decide)⟩

/-! ## C4 -/

/-- C4: `cancel_appointment` returns the not-found outcome (a value, never
    an exception — the function is total) when no row matches the given id,
    or the given patient+date pair; when a match is found, the calendar
    delete's raising is swallowed (quantified over both outcomes `cr`), the
    durable row is deleted, and the reported result is `success` exactly
    when the record-store delete does not raise and `deleteFailed` when it
    does — determined solely by that delete. -/
theorem C4_cancel_outcomes :
    (∀ (db : List Appt) (dr cr : Bool) (aid pn dt : String),
        ¬ pyUpper (pyStrip aid) = "" →
        find_appointment_db_by_id db (pyUpper (pyStrip aid)) = none →
        cancel_appointment db db dr cr aid pn dt = (.notFound, db))
    ∧ (∀ (db : List Appt) (dr cr : Bool) (pn dt : String),
        ¬ pyLower (pyStrip pn) = "" → ¬ pyStrip dt = "" →
        find_appointment_db_by_patient_and_date db (pyLower (pyStrip pn))
          (pyStrip dt) = none →
        cancel_appointment db db dr cr "" pn dt = (.notFound, db))
    ∧ (∀ (db : List Appt) (cr : Bool) (aid pn dt : String) (a : Appt),
        ¬ pyUpper (pyStrip aid) = "" →
        find_appointment_db_by_id db (pyUpper (pyStrip aid)) = some a →
        cancel_appointment db db false cr aid pn dt
          = (.success a, db.filter (fun x => ¬ x.id = a.id)))
    ∧ (∀ (db : List Appt) (cr : Bool) (aid pn dt : String) (a : Appt),
        ¬ pyUpper (pyStrip aid) = "" →
        find_appointment_db_by_id db (pyUpper (pyStrip aid)) = some a →
        cancel_appointment db db true cr aid pn dt = (.deleteFailed, db)) := by
  refine ⟨?_, ?_, ?_, ?_⟩
  · intro db dr cr aid pn dt hid hfind
    simp only [cancel_appointment]
    rw [if_neg (fun hc => hid hc.1), if_pos hid]
    simp only [hfind]
  · intro db dr cr pn dt hpn hdt hfind
    simp only [cancel_appointment]
    rw [if_neg (fun hc => (hc.2.elim hpn hdt)),
      if_neg (fun hc => hc (show pyUpper (pyStrip "") = "" from rfl))]
    simp only [hfind]
  · intro db cr aid pn dt a hid hfind
    simp only [cancel_appointment]
    rw [if_neg (fun hc => hid hc.1), if_pos hid]
    simp only [hfind, delete_appointment_db]
    rfl
  · intro db cr aid pn dt a hid hfind
    simp only [cancel_appointment]
    rw [if_neg (fun hc => hid hc.1), if_pos hid]
    simp only [hfind, delete_appointment_db]
    rfl

/-- Witness for C4: not-found by id, not-found by patient+date, a found
    cancellation whose calendar delete raises yet still succeeds and
    removes the row, and a found cancellation whose record delete raises
    and reports failure. -/
theorem C4_witness :
    cancel_appointment [] [] false false "APT9999" "" ""
      = (.notFound, [])
    ∧ cancel_appointment
        [mkAppt 0 "ali" "sialkot" 739572 "10:00 AM - 11:00 AM" ""]
        [mkAppt 0 "ali" "sialkot" 739572 "10:00 AM - 11:00 AM" ""]
        false false "" "bob" "2025-11-17"
      = (.notFound, [mkAppt 0 "ali" "sialkot" 739572 "10:00 AM - 11:00 AM" ""])
    ∧ cancel_appointment
        [mkAppt 0 "ali" "sialkot" 739572 "10:00 AM - 11:00 AM" ""]
        [mkAppt 0 "ali" "sialkot" 739572 "10:00 AM - 11:00 AM" ""]
        false true "apt1001" "" ""
      = (.success (mkAppt 0 "ali" "sialkot" 739572 "10:00 AM - 11:00 AM" ""), [])
    ∧ cancel_appointment
        [mkAppt 0 "ali" "sialkot" 739572 "10:00 AM - 11:00 AM" ""]
        [mkAppt 0 "ali" "sialkot" 739572 "10:00 AM - 11:00 AM" ""]
        true false "apt1001" "" ""
      = (.deleteFailed,
         [mkAppt 0 "ali" "sialkot" 739572 "10:00 AM - 11:00 AM" ""]) :=
  ⟨C4_cancel_outcomes.1 [] false false "APT9999" "" "" (by decide) rfl,
   C4_cancel_outcomes.2.1
     [mkAppt 0 "ali" "sialkot" 739572 "10:00 AM - 11:00 AM" ""]
     false false "bob" "2025-11-17" (by decide) (by decide) (by decide),
   C4_cancel_outcomes.2.2.1
     [mkAppt 0 "ali" "sialkot" 739572 "10:00 AM - 11:00 AM" ""]
     true "apt1001" "" "" (mkAppt 0 "ali" "sialkot" 739572 "10:00 AM - 11:00 AM" "")
     (by decide) (by decide),
   C4_cancel_outcomes.2.2.2
     [mkAppt 0 "ali" "sialkot" 739572 "10:00 AM - 11:00 AM" ""]
     false "apt1001" "" "" (mkAppt 0 "ali" "sialkot" 739572 "10:00 AM - 11:00 AM" "")
     (by decide) (by decide)⟩

/-! ## C10 -/

/-- C10: the delete helper reports `True` on any non-raising call,
    independent of whether a row was removed — on a store holding no row
    with the target id it returns the store unchanged together with `True`
    — and consequently a cancellation whose looked-up appointment has
    disappeared from the store by the time the delete runs (another
    session's removal) still reports success naming the looked-up
    appointment. -/
theorem C10_delete_reports_success :
    (∀ (db : List Appt) (aid : String),
        (∀ a ∈ db, ¬ a.id = aid) →
        delete_appointment_db db false aid = (db, true))
    ∧ (∀ (dbLookup dbDelete : List Appt) (cr : Bool) (aid pn dt : String)
        (a : Appt),
        ¬ pyUpper (pyStrip aid) = "" →
        find_appointment_db_by_id dbLookup (pyUpper (pyStrip aid)) = some a →
        (∀ x ∈ dbDelete, ¬ x.id = a.id) →
        cancel_appointment dbLookup dbDelete false cr aid pn dt
          = (.success a, dbDelete)) := by
  have hfilter : ∀ (db : List Appt) (aid : String),
      (∀ a ∈ db, ¬ a.id = aid) →
      db.filter (fun a => ¬ a.id = aid) = db := by
    intro db aid h
    rw [List.filter_eq_self]
    intro a ha
    exact decide_eq_true (h a ha)
  constructor
  · intro db aid h
    simp only [delete_appointment_db, if_neg (by simp : ¬ false = true)]
    rw [hfilter db aid h]
  · intro dbLookup dbDelete cr aid pn dt a hid hfind hgone
    simp only [cancel_appointment]
    rw [if_neg (fun hc => hid hc.1), if_pos hid]
    simp only [hfind, delete_appointment_db]
    simp only [if_neg (by simp : ¬ false = true)]
    rw [hfilter dbDelete a.id hgone]
    simp

/-- Witness for C10: no row carries id APT9999, yet the delete helper
    reports `True`; and a cancellation whose row vanished from the store
    between lookup and delete still reports success with the stale
    snapshot. -/
theorem C10_witness :
    delete_appointment_db
        [mkAppt 0 "ali" "sialkot" 739572 "10:00 AM - 11:00 AM" ""]
        false "APT9999"
      = ([mkAppt 0 "ali" "sialkot" 739572 "10:00 AM - 11:00 AM" ""], true)
    ∧ cancel_appointment
        [mkAppt 0 "ali" "sialkot" 739572 "10:00 AM - 11:00 AM" ""]
        [] false false "APT1001" "" ""
      = (.success (mkAppt 0 "ali" "sialkot" 739572 "10:00 AM - 11:00 AM" ""),
         []) :=
  ⟨C10_delete_reports_success.1
     [mkAppt 0 "ali" "sialkot" 739572 "10:00 AM - 11:00 AM" ""]
     "APT9999" (by decide),
   C10_delete_reports_success.2
     [mkAppt 0 "ali" "sialkot" 739572 "10:00 AM - 11:00 AM" ""]
     [] false "APT1001" "" ""
     (mkAppt 0 "ali" "sialkot" 739572 "10:00 AM - 11:00 AM" "")
     (by decide) (by decide) (by decide)⟩

